import Mathlib

/-!
# Verification of the askio-widget realtime session and stream-reconciliation engine

This file gives a shallow embedding, in Lean 4, of the core algorithms of the
embeddable chat widget: the STT chunk buffer (`src/utils/websocket-client.ts` /
`src/src/services/chat-store.ts`), the conversation-state reducers of the chat
store (`src/chat-store.ts`, `src/src/services/chat-store.ts`), the WebSocket
service's send/reconnect logic (`src/src/services/websocket.ts`), the TTS audio
playback manager (`src/utils/audio-processor.ts`), and the microphone capture
PCM conversion (`src/utils/recording-manager.ts`).  Each definition translates
the corresponding TypeScript function; theorems settle the spec's claims
against these definitions.
-/

/- ============================================================
   Part 1: STT chunk buffer
   Source: src/utils/websocket-client.ts, class SttChunkBuffer
   (identical copy in src/src/services/chat-store.ts)
   ============================================================ -/

/-- JS `String.prototype.trim` whitespace test, restricted to the common ASCII
whitespace characters that can occur in transcripts. -/
def isJsSpace (c : Char) : Bool :=
  c = ' ' || c = '\t' || c = '\n' || c = '\r'

/-- Model of JS `String.prototype.trim`: strip leading and trailing whitespace. -/
def jsTrim (s : String) : String :=
  ⟨((s.data.dropWhile isJsSpace).reverse.dropWhile isJsSpace).reverse⟩

/-- A transcript fragment (`SttChunkMessage`'s fields used by the buffer). -/
structure SttChunk where
  text : String
  isFinal : Bool
deriving DecidableEq, Repr

/-- The `SttChunkBuffer` state: `chunks` array plus the capacity `maxSize`. -/
structure SttChunkBuffer where
  chunks : List SttChunk
  maxSize : Nat
deriving DecidableEq, Repr

/-- `add(chunk)`: push, then if `length > maxSize`, `shift()` (drop the oldest). -/
def addChunk (b : SttChunkBuffer) (c : SttChunk) : SttChunkBuffer :=
  let chunks := b.chunks ++ [c]
  { b with chunks := if chunks.length > b.maxSize then chunks.tail else chunks }

/-- The buffer obtained by a sequence of `add` calls on a fresh buffer. -/
def buildBuffer (maxSize : Nat) (cs : List SttChunk) : SttChunkBuffer :=
  cs.foldl addChunk { chunks := [], maxSize := maxSize }

/-- `getFinalText()`: `chunks.filter(isFinal).map(text).join(' ').trim()`. -/
def getFinalText (b : SttChunkBuffer) : String :=
  jsTrim (String.intercalate " " ((b.chunks.filter (·.isFinal)).map (·.text)))

/-- Index of the last final chunk (the backward `for` loop computing
`lastFinalIndex`; `none` models the loop leaving `-1`). -/
def lastFinalIdx : List SttChunk → Option Nat
  | [] => none
  | c :: rest =>
    match lastFinalIdx rest with
    | some k => some (k + 1)
    | none => if c.isFinal then some 0 else none

/-- `getInterimText()`: slice the chunks after `lastFinalIndex` and return the
text of the last one, or the empty string. -/
def getInterimText (b : SttChunkBuffer) : String :=
  let interimChunks :=
    match lastFinalIdx b.chunks with
    | some k => b.chunks.drop (k + 1)
    | none => b.chunks
  match interimChunks.getLast? with
  | none => ""
  | some c => c.text

/-- `getCompleteText()`: interim if no final text, final if no interim text,
otherwise the two joined by a space and the result trimmed. -/
def getCompleteText (b : SttChunkBuffer) : String :=
  let finalText := getFinalText b
  let interimText := getInterimText b
  if finalText = "" then interimText
  else if interimText = "" then finalText
  else jsTrim (finalText ++ " " ++ interimText)

/- Spec-side definitions, written from the claim's words, for comparison. -/

/-- Spec's `finalText()`: the space-joined, trimmed text of all buffered
fragments with `isFinal = true`, in arrival order. -/
def specFinalText (cs : List SttChunk) : String :=
  jsTrim (String.intercalate " " ((cs.filter (·.isFinal)).map (·.text)))

/-- Spec's `interimText()`: the text of the last fragment positioned after the
last final fragment, or the empty string if no such fragment exists. -/
def specInterimText (cs : List SttChunk) : String :=
  match (cs.reverse.takeWhile (fun c => !c.isFinal)).head? with
  | some c => c.text
  | none => ""

/-- The claim's formula for `completeText()`: the two parts joined by a single
space when both are non-empty, otherwise whichever is non-empty, else empty
(note: no trimming of the joined result). -/
def claimCompleteText (ft it : String) : String :=
  if ft ≠ "" ∧ it ≠ "" then ft ++ " " ++ it
  else if ft ≠ "" then ft
  else it

/- Helper lemmas relating the code's backward index scan to the spec's
"fragments after the last final" suffix. -/

theorem lastFinalIdx_eq_none_iff (cs : List SttChunk) :
    lastFinalIdx cs = none ↔ ∀ c ∈ cs, c.isFinal = false := by
  induction cs with
  | nil => simp [lastFinalIdx]
  | cons c rest ih =>
    simp only [lastFinalIdx]
    cases h : lastFinalIdx rest with
    | some k =>
      simp only [reduceCtorEq, false_iff]
      intro hall
      have : lastFinalIdx rest = none := (ih).mpr (fun d hd => hall d (List.mem_cons_of_mem _ hd))
      rw [h] at this; exact absurd this (by simp)
    | none =>
      rcases hc : c.isFinal with _ | _
      · simpa [hc] using fun d hd => (ih.mp h) d hd
      · simp [hc]

/-- Both the backward index scan and the spec's suffix formulation reduce to a
test on the last buffered chunk; this characterizes the code's computation. -/
theorem interimOfList_simple (cs : List SttChunk) :
    (let interimChunks :=
       match lastFinalIdx cs with
       | some k => cs.drop (k + 1)
       | none => cs
     match interimChunks.getLast? with
     | none => ""
     | some c => c.text)
    = (match cs.getLast? with
       | some c => if c.isFinal then "" else c.text
       | none => "") := by
  induction cs with
  | nil => rfl
  | cons c rest ih =>
    simp only [lastFinalIdx]
    cases h : lastFinalIdx rest with
    | some k =>
      rw [h] at ih
      simp only [List.drop_succ_cons]
      have hrest : rest ≠ [] := by
        intro hnil; rw [hnil] at h; exact absurd h (by simp [lastFinalIdx])
      cases hr : rest.getLast? with
      | none => exact absurd (List.getLast?_eq_none_iff.mp hr) hrest
      | some d =>
        rw [hr] at ih
        have : (c :: rest).getLast? = some d := by
          rw [List.getLast?_cons, hr]; rfl
        rw [this]
        simpa using ih
    | none =>
      have hall : ∀ d ∈ rest, d.isFinal = false := (lastFinalIdx_eq_none_iff rest).mp h
      rcases hc : c.isFinal with _ | _
      · -- c not final: no final chunk at all, the slice is the whole list
        simp only [hc]
        cases hr : rest.getLast? with
        | none =>
          have : rest = [] := List.getLast?_eq_none_iff.mp hr
          subst this
          simp [hc]
        | some d =>
          have hd : d.isFinal = false := hall d (List.mem_of_getLast?_eq_some hr)
          have : (c :: rest).getLast? = some d := by
            rw [List.getLast?_cons, hr]; rfl
          simp [this, hd]
      · -- c final at index 0: the slice is `rest`
        simp only [hc]
        cases hr : rest.getLast? with
        | none =>
          have : rest = [] := List.getLast?_eq_none_iff.mp hr
          subst this
          simp [hc]
        | some d =>
          have hd : d.isFinal = false := hall d (List.mem_of_getLast?_eq_some hr)
          have : (c :: rest).getLast? = some d := by
            rw [List.getLast?_cons, hr]; rfl
          simp [this, hr, hd]

/-- The spec-side suffix formulation also reduces to a test on the last chunk. -/
theorem specInterimText_simple (cs : List SttChunk) :
    specInterimText cs
    = (match cs.getLast? with
       | some c => if c.isFinal then "" else c.text
       | none => "") := by
  unfold specInterimText
  cases hrev : cs.reverse with
  | nil =>
    have : cs = [] := by simpa using congrArg List.reverse hrev
    subst this; rfl
  | cons d ds =>
    have hlast : cs.getLast? = some d := by
      rw [List.getLast?_eq_head?_reverse, hrev]; rfl
    rw [hlast]
    rcases hd : d.isFinal with _ | _ <;> simp [List.takeWhile_cons, hd]

theorem getInterimText_eq_spec (b : SttChunkBuffer) :
    getInterimText b = specInterimText b.chunks := by
  rw [specInterimText_simple]
  exact interimOfList_simple b.chunks

theorem getFinalText_eq_spec (b : SttChunkBuffer) :
    getFinalText b = specFinalText b.chunks := rfl

/-- C1. The claim's exact-join formula fails when the latest interim fragment
carries trailing whitespace: the code trims the joined string. -/
theorem c1_counterexample :
    getCompleteText (buildBuffer 10 [⟨"hello", true⟩, ⟨"world ", false⟩])
      ≠ claimCompleteText
          (getFinalText (buildBuffer 10 [⟨"hello", true⟩, ⟨"world ", false⟩]))
          (getInterimText (buildBuffer 10 [⟨"hello", true⟩, ⟨"world ", false⟩])) := by
  decide

/-- C1 (amended). For every sequence of `add` calls, `completeText()` equals
`finalText()` and `interimText()` joined by a single space *with the joined
string trimmed* when both are non-empty, otherwise whichever one is non-empty
(unmodified), otherwise the empty string — where `finalText()` is the
space-joined, trimmed text of the buffered final fragments in arrival order and
`interimText()` is the text of the last fragment after the last final fragment.
The claim's concrete example still holds. -/
theorem c1_completeText_spec :
    (∀ cs : List SttChunk,
      getCompleteText (buildBuffer 10 cs) =
        (let ft := specFinalText (buildBuffer 10 cs).chunks
         let it := specInterimText (buildBuffer 10 cs).chunks
         if ft = "" then it else if it = "" then ft else jsTrim (ft ++ " " ++ it)))
    ∧ getCompleteText (buildBuffer 10 [⟨"hello", true⟩, ⟨"wor", false⟩, ⟨"world", false⟩])
        = "hello world" := by
  constructor
  · intro cs
    show getCompleteText _ = _
    rw [getCompleteText, ← getFinalText_eq_spec, ← getInterimText_eq_spec]
  · decide

/- ============================================================
   Part 2: conversation state reducers
   Source: src/chat-store.ts (Zustand store `useChatStore`);
   the same handlers appear in src/src/services/chat-store.ts.
   ============================================================ -/

/-- Browser `WebSocket.readyState` values. -/
inductive ReadyState where
  | Connecting
  | Open
  | Closing
  | Closed
deriving DecidableEq, Repr

/-- `ChatMessage.type` values. -/
inductive Role where
  | user
  | bot
  | system
deriving DecidableEq, Repr

/-- `ChatMessage` of src/chat-store.ts: `content?: string`,
`rawContent?: string`, `type` (absent optional fields are `none`). -/
structure ChatMessage where
  content : Option String
  rawContent : Option String
  type : Role
deriving DecidableEq, Repr

/-- The slice of the store's state that the verified handlers read and write. -/
structure RootState where
  messages : List ChatMessage
  isTyping : Bool
  isLoading : Bool
  chatOpened : Bool
  isConnected : Bool
  error : Option String
  webSocket : Option ReadyState
  sessionId : Option String
deriving DecidableEq, Repr

/-- `messages[messages.length - 1] = f(lastMsg)`: copy the array and replace
its last element. -/
def replaceLast (l : List ChatMessage) (f : ChatMessage → ChatMessage) : List ChatMessage :=
  l.dropLast ++ (l.getLast?.map f).toList

/-- The `'end'` case of `connectWebSocket.onmessage` (src/chat-store.ts
lines 410-431; `connect.onEnd` in src/src/services/chat-store.ts is the same):
clear the typing/loading flags, then, if the last message is a bot message
with truthy `rawContent`, run it through `marked.parse` (the markdown→HTML
collaborator, here the parameter `render`) and store the result as the
displayed `content`.  Returns the new state and the list of inputs passed to
the renderer, in call order. -/
def onEnd (render : String → String) (s : RootState) : RootState × List String :=
  let s1 := { s with isTyping := false, isLoading := false }
  match s1.messages.getLast? with
  | some lastMessage =>
    if lastMessage.type = Role.bot ∧ lastMessage.rawContent.getD "" ≠ "" then
      let html := render (lastMessage.rawContent.getD "")
      let updated := replaceLast s1.messages
        (fun lastMsg => if lastMsg.type = Role.bot then { lastMsg with content := some html } else lastMsg)
      ({ s1 with messages := updated }, [lastMessage.rawContent.getD ""])
    else (s1, [])
  | none => (s1, [])

/-- The STT branch of the `'text'` case of `connectWebSocket.onmessage`
(src/chat-store.ts lines 307-343; `connect.onTextResponse` in
src/src/services/chat-store.ts): duplicate transcripts are skipped, otherwise
the last user message is updated (or, for a final transcript with no open user
message, a new user message is appended); afterwards a final transcript sets
the loading flag if it is not already set. -/
def onTextStt (s : RootState) (content : String) (isFinal : Bool) : RootState :=
  let s1 :=
    match s.messages.getLast? with
    | some lastMessage =>
      if lastMessage.type = Role.user ∧ lastMessage.content = some content then s
      else if lastMessage.type = Role.user then
        { s with messages := replaceLast s.messages (fun m => { m with content := some content }) }
      else if isFinal then
        { s with messages := s.messages ++ [⟨some content, none, Role.user⟩] }
      else s
    | none =>
      if isFinal then { s with messages := s.messages ++ [⟨some content, none, Role.user⟩] }
      else s
  if isFinal ∧ s1.isLoading = false then { s1 with isLoading := true } else s1

/- ============================================================
   Part 3: sending (src/src/services/websocket.ts `send`,
   src/chat-store.ts `sendMessage`)
   ============================================================ -/

/-- `WebSocketError` (src/src/services/websocket.ts): message, code,
recoverable flag. -/
structure WsError where
  message : String
  code : String
  recoverable : Bool
deriving DecidableEq, Repr

/-- The error thrown by `send` when the socket is absent or not Open. -/
def notConnectedError : WsError :=
  { message := "WebSocket not connected", code := "SEND_FAILED", recoverable := true }

/-- Structured client messages (src/chat-ws.ts `ClientMessage` plus the
control messages sent directly by the store). -/
inductive StructuredMessage where
  | textMessage (text : String) (sessionId : Option String)
  | endSpeech (finalText : String) (sessionId : Option String)
  | setLanguage (language : String)
  | setTts (ttsEnabled : Bool)
  | renew
deriving DecidableEq, Repr

/-- The argument of `WebSocketService.send`: a structured message or a binary
audio payload. -/
inductive OutboundData where
  | structured (m : StructuredMessage)
  | binary (bytes : List Nat)
deriving DecidableEq, Repr

/-- A frame as put on the wire: a JSON text frame or a binary frame. -/
inductive Frame where
  | textFrame (payload : String)
  | binaryFrame (bytes : List Nat)
deriving DecidableEq, Repr

/-- `WebSocketService.send` (src/src/services/websocket.ts lines 390-419):
throws `notConnectedError` when the socket is absent or `readyState` is not
Open; otherwise an `ArrayBuffer` is sent as-is and a structured message is
serialized (by `JSON.stringify`, the external collaborator `serialize`) into a
text frame.  The thrown error is modeled as the `Except.error` result; the
platform-level `ws.send` is modeled as succeeding. -/
def wsServiceSend (serialize : StructuredMessage → String)
    (ws : Option ReadyState) (message : OutboundData) : Except WsError Frame :=
  match ws with
  | none => Except.error notConnectedError
  | some st =>
    if st ≠ ReadyState.Open then Except.error notConnectedError
    else
      match message with
      | OutboundData.binary b => Except.ok (Frame.binaryFrame b)
      | OutboundData.structured m => Except.ok (Frame.textFrame (serialize m))

/-- `sendMessage` of src/chat-store.ts (lines 466-499): returns immediately on
blank input; sets the error state (without throwing) when the socket is
absent, the store is not connected, or the socket is not Open; otherwise sets
the optimistic flags, appends the user turn, and transmits the serialized
`text-message`.  The returned `Option Frame` is the transmitted frame. -/
def sendMessage (serialize : StructuredMessage → String)
    (s : RootState) (content : String) : RootState × Option Frame :=
  if jsTrim content = "" then (s, none)
  else if s.webSocket = none ∨ s.isConnected = false ∨ s.webSocket ≠ some ReadyState.Open then
    ({ s with error := some "Not connected to chat service" }, none)
  else
    let s1 := { s with chatOpened := true, isLoading := true, error := none }
    let userMessage : ChatMessage := ⟨some (jsTrim content), none, Role.user⟩
    let s2 := { s1 with messages := s1.messages ++ [userMessage] }
    (s2, some (Frame.textFrame (serialize
      (StructuredMessage.textMessage (jsTrim content) s.sessionId))))

/- ============================================================
   Theorems for claims C2, C6, C7, C10
   ============================================================ -/

/-- C2. On an `end` event: the typing and loading flags are cleared; when the
last turn is a bot turn with non-empty `rawContent`, the markdown renderer is
invoked exactly once on that `rawContent`, which itself stays unchanged while
the displayed `content` becomes the rendered result (all other messages and
state fields untouched); otherwise no render occurs and only the flags
change. -/
theorem c2_end_renders_once (render : String → String) (s : RootState) :
    (onEnd render s).1.isTyping = false
    ∧ (onEnd render s).1.isLoading = false
    ∧ (onEnd render s).1.error = s.error
    ∧ (onEnd render s).1.chatOpened = s.chatOpened
    ∧ (onEnd render s).1.isConnected = s.isConnected
    ∧ (match s.messages.getLast? with
       | some m =>
         if m.type = Role.bot ∧ m.rawContent.getD "" ≠ "" then
           (onEnd render s).2 = [m.rawContent.getD ""]
           ∧ (onEnd render s).1.messages
             = s.messages.dropLast ++ [{ m with content := some (render (m.rawContent.getD "")) }]
         else (onEnd render s).2 = [] ∧ (onEnd render s).1.messages = s.messages
       | none => (onEnd render s).2 = [] ∧ (onEnd render s).1.messages = s.messages) := by
  unfold onEnd replaceLast
  cases hl : s.messages.getLast? with
  | none =>
    have : s.messages = [] := List.getLast?_eq_none_iff.mp hl
    simp [hl, this]
  | some m =>
    by_cases hb : m.type = Role.bot ∧ m.rawContent.getD "" ≠ ""
    · have hmsgs : s.messages = s.messages.dropLast ++ [m] := by
        rcases List.getLast?_eq_some_iff.mp hl with ⟨ys, hys⟩
        rw [hys]; simp
      simp [hl, hb, hb.1]
    · have hmsgs : s.messages = s.messages.dropLast ++ [m] := by
        rcases List.getLast?_eq_some_iff.mp hl with ⟨ys, hys⟩
        rw [hys]; simp
      simp [hl, hb]

/-- A reachable store state whose last message is a user turn with content
"hi" and whose loading flag is clear (e.g. right after an `end` event). -/
def dupExampleState : RootState :=
  { messages := [⟨some "hi", none, Role.user⟩]
    isTyping := false
    isLoading := false
    chatOpened := true
    isConnected := true
    error := none
    webSocket := some ReadyState.Open
    sessionId := some "s1" }

/-- C6 counterexample. A duplicate *final* STT transcript is not a no-op: the
message list is untouched, but the handler still sets the loading flag, so the
state does mutate (claim falsified at this input). -/
theorem c6_counterexample :
    onTextStt dupExampleState "hi" true ≠ dupExampleState
    ∧ onTextStt dupExampleState "hi" true = { dupExampleState with isLoading := true } := by
  constructor
  · decide
  · decide

/-- C6 (amended). When an inbound STT transcript event carries content equal
to the content of the current last user turn, the message list and all flags
are unchanged, except that a *final* duplicate sets the loading flag to true
when it was false. -/
theorem c6_duplicate_suppression (s : RootState) (content : String)
    (isFinal : Bool) (m : ChatMessage)
    (hlast : s.messages.getLast? = some m)
    (huser : m.type = Role.user)
    (hdup : m.content = some content) :
    onTextStt s content isFinal
      = if isFinal ∧ s.isLoading = false then { s with isLoading := true } else s := by
  unfold onTextStt
  rw [hlast]
  simp only [huser, hdup, and_self, if_pos, true_and]

/-- C6 amended witness: an interim duplicate is a strict no-op, and a final
duplicate only flips the loading flag. -/
theorem c6_duplicate_suppression_witness :
    onTextStt dupExampleState "hi" false
      = (if false = true ∧ dupExampleState.isLoading = false
         then { dupExampleState with isLoading := true } else dupExampleState) :=
  c6_duplicate_suppression dupExampleState "hi" false ⟨some "hi", none, Role.user⟩
    (by decide) (by decide) (by decide)

/-- C7. `send` fails with the NotConnected error when the socket is absent or
not Open (modeled as an `Except.error` result, i.e. a signaled failure, not a
crash); at Open, structured messages become serialized text frames and binary
payloads pass through unmodified.  At the application level, `sendMessage` on
a non-Open socket is total and surfaces the failure as store error state
(nothing is transmitted and no exception escapes). -/
theorem c7_send_not_connected (serialize : StructuredMessage → String) :
    (∀ msg, wsServiceSend serialize none msg = Except.error notConnectedError)
    ∧ (∀ st msg, st ≠ ReadyState.Open →
        wsServiceSend serialize (some st) msg = Except.error notConnectedError)
    ∧ (∀ b, wsServiceSend serialize (some ReadyState.Open) (OutboundData.binary b)
        = Except.ok (Frame.binaryFrame b))
    ∧ (∀ m, wsServiceSend serialize (some ReadyState.Open) (OutboundData.structured m)
        = Except.ok (Frame.textFrame (serialize m)))
    ∧ (∀ s content, jsTrim content ≠ "" →
        (s.webSocket = none ∨ s.isConnected = false ∨ s.webSocket ≠ some ReadyState.Open) →
        sendMessage serialize s content
          = ({ s with error := some "Not connected to chat service" }, none)) := by
  refine ⟨fun msg => rfl, fun st msg hst => ?_, fun b => rfl, fun m => rfl, fun s content hc hw => ?_⟩
  · unfold wsServiceSend
    simp [hst]
  · unfold sendMessage
    rw [if_neg hc, if_pos hw]

/-- A store state whose socket has closed. -/
def closedSocketState : RootState :=
  { dupExampleState with isConnected := false, webSocket := some ReadyState.Closed }

/-- C7 witness: concrete evaluations of every part of the send contract. -/
theorem c7_send_not_connected_witness :
    wsServiceSend (fun _ => "json") (some ReadyState.Connecting) (OutboundData.binary [1, 2])
      = Except.error notConnectedError
    ∧ sendMessage (fun _ => "json") closedSocketState "hello"
      = ({ closedSocketState with error := some "Not connected to chat service" }, none) := by
  constructor
  · exact (c7_send_not_connected (fun _ => "json")).2.1 ReadyState.Connecting
      (OutboundData.binary [1, 2]) (by decide)
  · exact (c7_send_not_connected (fun _ => "json")).2.2.2.2
      closedSocketState "hello" (by decide) (Or.inr (Or.inl rfl))

/-- C10. `sendMessage` with empty or whitespace-only content returns
immediately with no state change and transmits nothing — before the
connectivity check, hence also when disconnected. -/
theorem c10_blank_send_noop (serialize : StructuredMessage → String)
    (s : RootState) (content : String) (hblank : jsTrim content = "") :
    sendMessage serialize s content = (s, none) := by
  unfold sendMessage
  rw [if_pos hblank]

/-- C10 witness: whitespace-only input on a disconnected store is a no-op (the
blank-input check takes precedence over the not-connected error). -/
theorem c10_blank_send_noop_witness :
    sendMessage (fun _ => "json") { closedSocketState with webSocket := none } "   "
      = ({ closedSocketState with webSocket := none }, none) :=
  c10_blank_send_noop (fun _ => "json")
    { closedSocketState with webSocket := none } "   " (by decide)

/- ============================================================
   Part 4: reconnection (src/src/services/websocket.ts)
   ============================================================ -/

/-- `ReconnectionConfig` of src/src/services/websocket.ts. -/
structure ReconnectionConfig where
  maxAttempts : Nat
  initialDelay : Nat
  maxDelay : Nat
  backoffMultiplier : Nat
deriving DecidableEq, Repr

/-- The defaults of `WebSocketService.reconnectionConfig`. -/
def defaultReconnectionConfig : ReconnectionConfig :=
  { maxAttempts := 5, initialDelay := 1000, maxDelay := 30000, backoffMultiplier := 2 }

/-- `calculateReconnectDelay` (lines 491-495):
`min(initialDelay * backoffMultiplier ^ reconnectAttempts, maxDelay)`. -/
def calculateReconnectDelay (cfg : ReconnectionConfig) (reconnectAttempts : Nat) : Nat :=
  min (cfg.initialDelay * cfg.backoffMultiplier ^ reconnectAttempts) cfg.maxDelay

/-- The `WebSocketService` fields involved in close/reconnect handling.
`configJwt` is `this.config.jwt`, the credential captured when `connect` was
called; `authJwt` is the `AuthService` token cache that the store's `onClose`
callback clears on a 4401 close; `reconnectTimerSet` models a pending
`reconnectTimer`. -/
structure SvcConnState where
  configJwt : String
  authJwt : Option String
  shouldReconnect : Bool
  reconnectAttempts : Nat
  cfg : ReconnectionConfig
  reconnectTimerSet : Bool
  isConnected : Bool
deriving DecidableEq, Repr

/-- `scheduleReconnect` (lines 469-486): when `reconnectAttempts >=
maxAttempts` it only logs "Max reconnection attempts reached" and returns —
no `onError` callback fires, so the second component (the errors surfaced to
the caller/UI by this call) is empty in every branch; otherwise it arms the
reconnect timer. -/
def scheduleReconnect (s : SvcConnState) : SvcConnState × List WsError :=
  if s.reconnectAttempts ≥ s.cfg.maxAttempts then (s, [])
  else ({ s with reconnectTimerSet := true }, [])

/-- `ws.onclose` (lines 192-218) combined with the store's `onClose` callback
(src/src/services/chat-store.ts lines 195-204): mark disconnected; on code
4401 the store clears the cached token (`authService.clearToken()`); then, if
`shouldReconnect` and the code is not 1000/1001, `scheduleReconnect()`. -/
def onCloseSvc (s : SvcConnState) (code : Nat) : SvcConnState :=
  let s1 := { s with isConnected := false }
  let s2 := if code = 4401 then { s1 with authJwt := none } else s1
  if s2.shouldReconnect ∧ code ≠ 1000 ∧ code ≠ 1001 then (scheduleReconnect s2).1
  else s2

/-- The armed reconnect timer firing (lines 478-485): bump the attempt counter
and call `connect(this.config)`, whose URL embeds `config.jwt` (`buildUrl`,
lines 100-110).  Returns the new state and the jwt carried in the connect
URL, `none` when no timer was pending. -/
def fireReconnect (s : SvcConnState) : SvcConnState × Option String :=
  if s.reconnectTimerSet then
    ({ s with reconnectTimerSet := false, reconnectAttempts := s.reconnectAttempts + 1 },
      some s.configJwt)
  else (s, none)

/- ============================================================
   Theorems for claims C3, C4, C5
   ============================================================ -/

/-- C3. With the default configuration the reconnect delay for attempt `n` is
`min(1000 * 2^n, 30000)`; attempts 0..4 give 1000, 2000, 4000, 8000, 16000 ms;
the delay is monotonically non-decreasing and never exceeds 30000 ms. -/
theorem c3_backoff_delay :
    (∀ n, calculateReconnectDelay defaultReconnectionConfig n = min (1000 * 2 ^ n) 30000)
    ∧ calculateReconnectDelay defaultReconnectionConfig 0 = 1000
    ∧ calculateReconnectDelay defaultReconnectionConfig 1 = 2000
    ∧ calculateReconnectDelay defaultReconnectionConfig 2 = 4000
    ∧ calculateReconnectDelay defaultReconnectionConfig 3 = 8000
    ∧ calculateReconnectDelay defaultReconnectionConfig 4 = 16000
    ∧ (∀ n, calculateReconnectDelay defaultReconnectionConfig n ≤ 30000)
    ∧ (∀ m n, m ≤ n →
        calculateReconnectDelay defaultReconnectionConfig m
          ≤ calculateReconnectDelay defaultReconnectionConfig n) := by
  refine ⟨fun n => rfl, rfl, rfl, rfl, rfl, rfl, fun n => min_le_right _ _, fun m n h => ?_⟩
  apply min_le_min_right
  exact Nat.mul_le_mul_left _ (Nat.pow_le_pow_right (by decide) h)

/-- C3 witness: monotonicity instantiated at attempts 2 ≤ 7, where the cap is
reached. -/
theorem c3_backoff_delay_witness :
    calculateReconnectDelay defaultReconnectionConfig 2
      ≤ calculateReconnectDelay defaultReconnectionConfig 7 :=
  c3_backoff_delay.2.2.2.2.2.2.2 2 7 (by norm_num)

/-- A connected service in its initial reconnect state, carrying credential
"tokA" both in the auth cache and captured in the connection config. -/
def svcExampleState : SvcConnState :=
  { configJwt := "tokA"
    authJwt := some "tokA"
    shouldReconnect := true
    reconnectAttempts := 0
    cfg := defaultReconnectionConfig
    reconnectTimerSet := false
    isConnected := true }

/-- C4 counterexample. After a 4401 close, the automatic reconnect fires
`connect(this.config)` whose URL carries `config.jwt` — the very credential
in use at the time of the close — even though the auth cache was cleared. -/
theorem c4_counterexample :
    (fireReconnect (onCloseSvc svcExampleState 4401)).2 = some "tokA"
    ∧ svcExampleState.configJwt = "tokA"
    ∧ (onCloseSvc svcExampleState 4401).authJwt = none := by
  refine ⟨by decide, by decide, by decide⟩

/-- C4 (amended). A 4401 close always clears the cached JWT before the next
connect attempt fires; however, the WebSocketService's automatic reconnect
reuses the jwt captured in its stored connection config, so that reconnection
opens a socket carrying the credential that was in use at the time of the
close (a fresh credential is obtained only when a connect goes back through
the auth service, as the store-level reconnect path does). -/
theorem c4_unauthorized_close (s : SvcConnState)
    (hsr : s.shouldReconnect = true)
    (hatt : s.reconnectAttempts < s.cfg.maxAttempts) :
    (onCloseSvc s 4401).authJwt = none
    ∧ (fireReconnect (onCloseSvc s 4401)).2 = some s.configJwt := by
  have h4401 : (4401 : Nat) ≠ 1000 ∧ (4401 : Nat) ≠ 1001 := by norm_num
  unfold onCloseSvc scheduleReconnect fireReconnect
  simp [hsr, h4401.1, h4401.2, Nat.not_le.mpr hatt]

/-- C4 amended witness: at the example state the cache is cleared and yet the
reconnect URL carries the old credential. -/
theorem c4_unauthorized_close_witness :
    (onCloseSvc svcExampleState 4401).authJwt = none
    ∧ (fireReconnect (onCloseSvc svcExampleState 4401)).2 = some svcExampleState.configJwt :=
  c4_unauthorized_close svcExampleState (by decide) (by decide)

/-- The service state after the default maximum of 5 reconnect attempts. -/
def exhaustedSvcState : SvcConnState :=
  { svcExampleState with reconnectAttempts := 5, isConnected := false }

/-- C5 counterexample. At the exhaustion point `scheduleReconnect` arms no
timer — but it also surfaces no error to the caller/UI (it only logs to the
console): the claim's "terminal error is surfaced" part is false. -/
theorem c5_counterexample :
    (scheduleReconnect exhaustedSvcState).1.reconnectTimerSet = false
    ∧ (scheduleReconnect exhaustedSvcState).2 = [] := by
  refine ⟨by decide, by decide⟩

/-- C5 (amended). Once the maximum number of reconnection attempts has been
reached, no further automatic reconnect is scheduled (the state is returned
unchanged); the exhaustion is only logged to the console — no terminal error
is surfaced to the caller/UI by the reconnect scheduler. -/
theorem c5_exhausted_reconnect (s : SvcConnState)
    (h : s.reconnectAttempts ≥ s.cfg.maxAttempts) :
    scheduleReconnect s = (s, []) := by
  unfold scheduleReconnect
  rw [if_pos h]

/-- C5 amended witness. -/
theorem c5_exhausted_reconnect_witness :
    scheduleReconnect exhaustedSvcState = (exhaustedSvcState, []) :=
  c5_exhausted_reconnect exhaustedSvcState (by decide)

/- ============================================================
   Part 5: TTS audio playback
   Source: src/utils/audio-processor.ts, class AudioPlaybackManager
   ============================================================ -/

/-- `AudioContext.state` (only the states the manager distinguishes). -/
inductive CtxState where
  | suspended
  | running
deriving DecidableEq, Repr

/-- An `AudioContext` handle: a creation id (to tell reinitialization apart
from reuse) and its state. -/
structure AudioCtx where
  id : Nat
  state : CtxState
deriving DecidableEq, Repr

/-- Platform conditions: whether `new AudioContext()` starts running and
whether `resume()` is allowed to succeed (autoplay policy). -/
structure AudioEnv where
  newCtxState : CtxState
  resumeAllowed : Bool
deriving DecidableEq, Repr

/-- A decoded playable buffer (`AudioBuffer` channel data). -/
def PlayBuf := List ℚ
deriving DecidableEq, Repr

/-- `pcmToAudioBuffer` (lines 151-165): each 16-bit signed sample is scaled to
the float range by division by 32768. -/
def pcmToAudioBuffer (samples : List Int) : PlayBuf :=
  samples.map (fun i => (i : ℚ) / 32768)

/-- Whether an optional context is in the suspended state. -/
def ctxSuspended : Option AudioCtx → Bool
  | some ctx => ctx.state = CtxState.suspended
  | none => false

/-- The `AudioPlaybackManager` fields. -/
structure AudioPlaybackManager where
  audioContext : Option AudioCtx
  audioQueue : List PlayBuf
  isPlaying : Bool
  currentSource : Option PlayBuf
  userInteracted : Bool
  nextCtxId : Nat
deriving DecidableEq, Repr

/-- `ctx.resume()`: succeeds (suspended → running) when the platform allows
it; the manager catches a rejection and continues. -/
def tryResume (env : AudioEnv) (ctx : AudioCtx) : AudioCtx :=
  if ctx.state = CtxState.suspended ∧ env.resumeAllowed = true
  then { ctx with state := CtxState.running }
  else ctx

/-- `initialize()` (lines 65-82): create the `AudioContext` if absent, resume
it if suspended, and mark the user as having interacted. -/
def initAudioContext (env : AudioEnv) (m : AudioPlaybackManager) : AudioPlaybackManager :=
  let m1 :=
    match m.audioContext with
    | none => { m with audioContext := some ⟨m.nextCtxId, env.newCtxState⟩,
                       nextCtxId := m.nextCtxId + 1 }
    | some _ => m
  let m2 :=
    match m1.audioContext with
    | some ctx =>
      if ctx.state = CtxState.suspended
      then { m1 with audioContext := some (tryResume env ctx) }
      else m1
    | none => m1
  { m2 with userInteracted := true }

/-- One step of `playNext` (lines 167-196): with an empty queue, stop; else
resume the context if needed, pop the head and start playing it. -/
def playNext (env : AudioEnv) (m : AudioPlaybackManager) : AudioPlaybackManager :=
  match m.audioQueue with
  | [] => { m with isPlaying := false, currentSource := none }
  | buf :: rest =>
    let m1 :=
      match m.audioContext with
      | some ctx =>
        if ctx.state ≠ CtxState.running
        then { m with audioContext := some (tryResume env ctx) }
        else m
      | none => m
    { m1 with isPlaying := true, audioQueue := rest, currentSource := some buf }

/-- `playAudioChunk(data)` (lines 84-143): lazily create/resume the context;
before the first user interaction on a suspended context, only queue the
decoded buffer; otherwise queue it and, when nothing is playing, start
`playNext`. -/
def playAudioChunk (env : AudioEnv) (m : AudioPlaybackManager)
    (data : List Int) : AudioPlaybackManager :=
  let m1 := if m.audioContext = none then initAudioContext env m else m
  let m2 :=
    match m1.audioContext with
    | some ctx =>
      if ctx.state ≠ CtxState.running
      then { m1 with audioContext := some (tryResume env ctx) }
      else m1
    | none => m1
  if m2.userInteracted = false ∧ ctxSuspended m2.audioContext = true then
    { m2 with audioQueue := m2.audioQueue ++ [pcmToAudioBuffer data] }
  else
    let m3 := { m2 with audioQueue := m2.audioQueue ++ [pcmToAudioBuffer data] }
    if m3.isPlaying = false then playNext env m3 else m3

/-- `stopTTS()` (lines 202-219): clear the queue, stop and drop the current
source, clear the playing flag; the `AudioContext` is not touched. -/
def stopTTS (m : AudioPlaybackManager) : AudioPlaybackManager :=
  { m with audioQueue := [], currentSource := none, isPlaying := false }

/-- `stop()` (lines 244-250): `stopTTS()` then close and null the context. -/
def stop (m : AudioPlaybackManager) : AudioPlaybackManager :=
  let m1 := stopTTS m
  match m1.audioContext with
  | some _ => { m1 with audioContext := none }
  | none => m1

/-- C8. `stopTTS()` empties the queue, stops the current source and clears the
playing flag while keeping the `AudioContext` open and non-null (whereas
`stop()` nulls it); a subsequent `playAudioChunk` on the running context
neither creates a new context nor bumps the creation counter, and it starts
playing the enqueued chunk immediately. -/
theorem c8_stopTTS_keeps_device (m : AudioPlaybackManager) (ctx : AudioCtx)
    (hctx : m.audioContext = some ctx) (hrun : ctx.state = CtxState.running) :
    (stopTTS m).audioQueue = []
    ∧ (stopTTS m).currentSource = none
    ∧ (stopTTS m).isPlaying = false
    ∧ (stopTTS m).audioContext = some ctx
    ∧ (stop m).audioContext = none
    ∧ (∀ env data,
        (playAudioChunk env (stopTTS m) data).audioContext = some ctx
        ∧ (playAudioChunk env (stopTTS m) data).nextCtxId = m.nextCtxId
        ∧ (playAudioChunk env (stopTTS m) data).isPlaying = true
        ∧ (playAudioChunk env (stopTTS m) data).currentSource
            = some (pcmToAudioBuffer data)) := by
  refine ⟨rfl, rfl, rfl, by simp [stopTTS, hctx], by simp [stop, stopTTS, hctx],
    fun env data => ?_⟩
  unfold playAudioChunk playNext stopTTS
  simp [hctx, hrun, ctxSuspended]

/-- A playback manager mid-playback on a running `AudioContext`. -/
def apmExampleState : AudioPlaybackManager :=
  { audioContext := some ⟨0, CtxState.running⟩
    audioQueue := [pcmToAudioBuffer [100]]
    isPlaying := true
    currentSource := some (pcmToAudioBuffer [-200])
    userInteracted := true
    nextCtxId := 1 }

/-- C8 witness: a playing manager on a running context, stopped via
`stopTTS`, resumes on the next chunk with the same context. -/
theorem c8_stopTTS_keeps_device_witness :
    (stopTTS apmExampleState).audioContext = some ⟨0, CtxState.running⟩
    ∧ (stop apmExampleState).audioContext = none
    ∧ (playAudioChunk ⟨CtxState.suspended, false⟩ (stopTTS apmExampleState) [16384]).isPlaying
        = true := by
  have h := c8_stopTTS_keeps_device apmExampleState ⟨0, CtxState.running⟩ rfl rfl
  exact ⟨h.2.2.2.1, h.2.2.2.2.1, (h.2.2.2.2.2 ⟨CtxState.suspended, false⟩ [16384]).2.2.1⟩

/- ============================================================
   Part 6: microphone capture PCM conversion
   Source: src/utils/recording-manager.ts — the identical conversion
   appears in the AudioWorklet processor (lines 76-81) and in the
   ScriptProcessorNode fallback (lines 165-170):
     const s = Math.max(-1, Math.min(1, input[i]));
     pcmData[i] = s < 0 ? s * 0x8000 : s * 0x7FFF;
   Samples are modeled as exact rationals; the clamp is exact in IEEE
   floats, and rounding of the products is monotone with representable
   endpoints, so the proved bounds carry over to the float computation.
   ============================================================ -/

/-- The float-to-16-bit conversion applied to one (possibly out-of-range)
input sample. -/
def pcmConvertSample (x : ℚ) : ℚ :=
  let s := max (-1) (min 1 x)
  if s < 0 then s * 32768 else s * 32767

/-- Storing into an `Int16Array` truncates the float toward zero (ECMAScript
ToInt16) before the mod-2^16 wrap. -/
def truncTowardZero (q : ℚ) : ℤ :=
  if 0 ≤ q then ⌊q⌋ else ⌈q⌉

/-- C9. For every input sample, the converted value lies in
[-32768, 32767] — both as the exact product and after the Int16Array
truncation — so the conversion never overflows the 16-bit range and the
mod-2^16 wrap of the store is the identity. -/
theorem c9_pcm_range (x : ℚ) :
    (-32768 ≤ pcmConvertSample x ∧ pcmConvertSample x ≤ 32767)
    ∧ (-32768 ≤ truncTowardZero (pcmConvertSample x)
        ∧ truncTowardZero (pcmConvertSample x) ≤ 32767) := by
  have h1 : (-1 : ℚ) ≤ max (-1) (min 1 x) := le_max_left _ _
  have h2 : max (-1) (min 1 x) ≤ 1 := max_le (by norm_num) (min_le_left _ _)
  have hval : -32768 ≤ pcmConvertSample x ∧ pcmConvertSample x ≤ 32767 := by
    unfold pcmConvertSample
    by_cases hs : max (-1) (min 1 x) < 0
    · rw [if_pos hs]
      constructor <;> nlinarith
    · rw [if_neg hs]
      push_neg at hs
      constructor <;> nlinarith
  refine ⟨hval, ?_⟩
  unfold truncTowardZero
  by_cases hq : 0 ≤ pcmConvertSample x
  · rw [if_pos hq]
    constructor
    · have : (0 : ℤ) ≤ ⌊pcmConvertSample x⌋ := Int.floor_nonneg.mpr hq
      omega
    · have := Int.floor_le_floor (α := ℚ) hval.2
      simpa using this
  · rw [if_neg hq]
    push_neg at hq
    constructor
    · have := Int.ceil_le_ceil (α := ℚ) hval.1
      simpa using this
    · have : ⌈pcmConvertSample x⌉ ≤ (0 : ℤ) := Int.ceil_le.mpr (by exact_mod_cast hq.le)
      omega
